import Mathlib

/-!
Shallow embedding of the mcp-memo service-client layer
(`src/memos/mod.rs`, `src/memos/service/{note,auth,user}.rs`,
`src/mcp/mod.rs`).

JSON wire values are modelled by an inductive `Json`; the HTTP transport is
a function from a built `Request` to either a network error or an
`HttpResponse` carrying a status code and a JSON body.  Every service
operation is translated into a pure function that threads the transport and
additionally returns the ordered list of requests it issued, so that
"zero/one network call" properties are statable.  A Rust `unwrap()` on a
`None` value is modelled by a dedicated `panic` outcome, distinct from a
returned `Result::Err`.
-/

namespace McpMemo

/-- Model of `serde_json::Value`. -/
inductive Json : Type where
  | null : Json
  | bool : Bool → Json
  | num : Int → Json
  | str : String → Json
  | arr : List Json → Json
  | obj : List (String × Json) → Json
deriving Repr

mutual

/-- Rendering of a JSON value to text, used to model the raw response body
text interpolated into transport error messages. -/
def Json.render : Json → String
  | .null => "null"
  | .bool b => cond b "true" "false"
  | .num n => toString n
  | .str s => "\"" ++ s ++ "\""
  | .arr xs => "[" ++ Json.renderItems xs ++ "]"
  | .obj kvs => "\x7b" ++ Json.renderFields kvs ++ "\x7d"

def Json.renderItems : List Json → String
  | [] => ""
  | [x] => Json.render x
  | x :: y :: xs => Json.render x ++ "," ++ Json.renderItems (y :: xs)

def Json.renderFields : List (String × Json) → String
  | [] => ""
  | [(k, v)] => "\"" ++ k ++ "\":" ++ Json.render v
  | (k, v) :: y :: xs =>
      "\"" ++ k ++ "\":" ++ Json.render v ++ "," ++ Json.renderFields (y :: xs)

end

/-- Field lookup in a JSON object (first occurrence of the key), the model
of serde looking up a struct field in a JSON map.  A non-object has no
fields. -/
def Json.lookup (j : Json) (k : String) : Option Json :=
  match j with
  | .obj kvs => kvs.lookup k
  | _ => Option.none

/-- HTTP method of a built request. -/
inductive Method : Type where
  | get | post | patch | delete
deriving Repr, DecidableEq

/-- A fully built HTTP request: method, absolute URL, bearer credential and
content-type header, optional JSON body (`.json(...)` on the builder). -/
structure Request : Type where
  method : Method
  url : String
  bearer : String
  contentType : String
  body : Option Json
deriving Repr

/-- An HTTP response: numeric status code and JSON body.  The raw body text
of `rsp.text()` is modelled as `body.render`. -/
structure HttpResponse : Type where
  status : Nat
  body : Json
deriving Repr

/-- Outcome of sending one request: a reqwest-level send error (propagated
by `?`), or a response. -/
inductive TransportResult : Type where
  | netErr : String → TransportResult
  | response : HttpResponse → TransportResult
deriving Repr

/-- The transport: what the remote server answers to each request. -/
def Transport : Type := Request → TransportResult

/-- `StatusCode::is_success()`: 2xx. -/
def statusIsSuccess (s : Nat) : Bool := 200 ≤ s && s < 300

/-- `Server` (src/memos/mod.rs): base URL, bearer token, and whether this
session's credential was obtained by sign-in (so teardown must sign out). -/
structure Server : Type where
  base_url : String
  token : String
  sign_out_required : Bool
deriving Repr, DecidableEq

/-- `Server::new`: base URL is fixed to `http://<host>/api/v1`, token is the
supplied credential, and the session is a root session. -/
def Server.new (host tok : String) : Server :=
  { base_url := "http://" ++ host ++ "/api/v1"
    token := tok
    sign_out_required := false }

/-- `HttpServer::build_get_request`. -/
def build_get_request (s : Server) (endpoint : String) : Request :=
  { method := Method.get
    url := s.base_url ++ "/" ++ endpoint
    bearer := s.token
    contentType := "application/json"
    body := Option.none }

/-- `HttpServer::build_post_request`. -/
def build_post_request (s : Server) (endpoint : String) : Request :=
  { method := Method.post
    url := s.base_url ++ "/" ++ endpoint
    bearer := s.token
    contentType := "application/json"
    body := Option.none }

/-- `HttpServer::build_delete_request`. -/
def build_delete_request (s : Server) (endpoint : String) : Request :=
  { method := Method.delete
    url := s.base_url ++ "/" ++ endpoint
    bearer := s.token
    contentType := "application/json"
    body := Option.none }

/-- `HttpServer::build_patch_request`. -/
def build_patch_request (s : Server) (endpoint : String) : Request :=
  { method := Method.patch
    url := s.base_url ++ "/" ++ endpoint
    bearer := s.token
    contentType := "application/json"
    body := Option.none }

/-- `RequestBuilder::json(body)`. -/
def Request.withJson (r : Request) (j : Json) : Request :=
  { r with body := Option.some j }

/-- `HttpServer::validate_response`: 2xx is success with the body
discarded; any other status becomes the single descriptive error built from
the status code and the raw body text. -/
def validate_response (rsp : HttpResponse) : Except String Unit :=
  if !statusIsSuccess rsp.status then
    Except.error ("Request failed: " ++ toString rsp.status ++ " - " ++ rsp.body.render)
  else
    Except.ok ()

/-- `HttpServer::validate_data_response::<T>`: 2xx decodes the body with
the typed decoder; any other status becomes the same descriptive error,
without touching the decoder. -/
def validate_data_response {α : Type} (decode : Json → Except String α)
    (rsp : HttpResponse) : Except String α :=
  if !statusIsSuccess rsp.status then
    Except.error ("Request failed: " ++ toString rsp.status ++ " - " ++ rsp.body.render)
  else
    decode rsp.body

/-! ### Decoder helpers (serde semantics)

A field with `#[serde(default)]` falls back to the type's default when the
key is missing; a field without it is required and its absence is a decode
error.  `Option` fields decode `null` to `None`.  Unknown keys are ignored
(no `deny_unknown_fields` in the source). -/

def reqField (j : Json) (k : String) : Except String Json :=
  match j.lookup k with
  | Option.some v => Except.ok v
  | Option.none => Except.error ("missing field " ++ k)

def decodeStr : Json → Except String String
  | .str s => Except.ok s
  | _ => Except.error "invalid type: expected string"

def decodeBool : Json → Except String Bool
  | .bool b => Except.ok b
  | _ => Except.error "invalid type: expected bool"

def decodeOptStr : Json → Except String (Option String)
  | .null => Except.ok Option.none
  | .str s => Except.ok (Option.some s)
  | _ => Except.error "invalid type: expected string or null"

def decodeOptJson : Json → Except String (Option Json)
  | .null => Except.ok Option.none
  | v => Except.ok (Option.some v)

def decodeList {α : Type} (d : Json → Except String α) : Json → Except String (List α)
  | .arr xs => xs.mapM d
  | _ => Except.error "invalid type: expected array"

/-- A `#[serde(default)]` field: missing key yields the default. -/
def defField {α : Type} (j : Json) (k : String) (dflt : α)
    (d : Json → Except String α) : Except String α :=
  match j.lookup k with
  | Option.none => Except.ok dflt
  | Option.some v => d v

/-- `Default` value of `chrono::DateTime<Utc>` (the Unix epoch), as the
model renders timestamps as strings. -/
def dateTimeDefault : String := "1970-01-01T00:00:00Z"

/-! ### Note-service data model (src/memos/service/note.rs) -/

/-- `note::State`. -/
inductive NoteState : Type where
  | StateUnspecified | Normal | Archived
deriving Repr, DecidableEq

def NoteState.toJson : NoteState → Json
  | .StateUnspecified => Json.str "STATE_UNSPECIFIED"
  | .Normal => Json.str "NORMAL"
  | .Archived => Json.str "ARCHIVED"

def decodeNoteState : Json → Except String NoteState
  | .str "STATE_UNSPECIFIED" => Except.ok NoteState.StateUnspecified
  | .str "NORMAL" => Except.ok NoteState.Normal
  | .str "ARCHIVED" => Except.ok NoteState.Archived
  | _ => Except.error "unknown variant for State"

/-- `note::Visibility`. -/
inductive Visibility : Type where
  | VisibilityUnspecified | Private | Protected | Public
deriving Repr, DecidableEq

def Visibility.toJson : Visibility → Json
  | .VisibilityUnspecified => Json.str "VISIBILITY_UNSPECIFIED"
  | .Private => Json.str "PRIVATE"
  | .Protected => Json.str "PROTECTED"
  | .Public => Json.str "PUBLIC"

def decodeVisibility : Json → Except String Visibility
  | .str "VISIBILITY_UNSPECIFIED" => Except.ok Visibility.VisibilityUnspecified
  | .str "PRIVATE" => Except.ok Visibility.Private
  | .str "PROTECTED" => Except.ok Visibility.Protected
  | .str "PUBLIC" => Except.ok Visibility.Public
  | _ => Except.error "unknown variant for Visibility"

/-- `note::RelationType`. -/
inductive RelationType : Type where
  | RelationTypeUnspecified | Reference | Comment
deriving Repr, DecidableEq

def RelationType.toJson : RelationType → Json
  | .RelationTypeUnspecified => Json.str "TYPE_UNSPECIFIED"
  | .Reference => Json.str "REFERENCE"
  | .Comment => Json.str "COMMENT"

def decodeRelationType : Json → Except String RelationType
  | .str "TYPE_UNSPECIFIED" => Except.ok RelationType.RelationTypeUnspecified
  | .str "REFERENCE" => Except.ok RelationType.Reference
  | .str "COMMENT" => Except.ok RelationType.Comment
  | _ => Except.error "unknown variant for RelationType"

/-- `note::Attachment` (camelCase wire keys; `mime_type` is wire key
`type`). -/
structure Attachment : Type where
  name : String
  create_time : String
  filename : String
  external_link : String
  mime_type : String
  size : String
  memo : String
deriving Repr

def Attachment.toJson (a : Attachment) : Json :=
  Json.obj
    [("name", Json.str a.name),
     ("createTime", Json.str a.create_time),
     ("filename", Json.str a.filename),
     ("externalLink", Json.str a.external_link),
     ("type", Json.str a.mime_type),
     ("size", Json.str a.size),
     ("memo", Json.str a.memo)]

def decodeAttachment (j : Json) : Except String Attachment := do
  let name ← defField j "name" "" decodeStr
  let create_time ← defField j "createTime" dateTimeDefault decodeStr
  let filename ← defField j "filename" "" decodeStr
  let external_link ← defField j "externalLink" "" decodeStr
  let mime_type ← reqField j "type" >>= decodeStr
  let size ← defField j "size" "" decodeStr
  let memo ← defField j "memo" "" decodeStr
  Except.ok
    { name := name, create_time := create_time, filename := filename
      external_link := external_link, mime_type := mime_type
      size := size, memo := memo }

/-- `note::Relation` (`memo`/`related_memo` are untyped `serde_json::Value`;
`relation_type` is wire key `type`). -/
structure Relation : Type where
  memo : Json
  related_memo : Json
  relation_type : RelationType
deriving Repr

def Relation.toJson (r : Relation) : Json :=
  Json.obj
    [("memo", r.memo),
     ("relatedMemo", r.related_memo),
     ("type", r.relation_type.toJson)]

def decodeRelation (j : Json) : Except String Relation := do
  let memo ← defField j "memo" Json.null Except.ok
  let related_memo ← defField j "relatedMemo" Json.null Except.ok
  let relation_type ← reqField j "type" >>= decodeRelationType
  Except.ok { memo := memo, related_memo := related_memo, relation_type := relation_type }

/-- `note::Reaction`. -/
structure Reaction : Type where
  name : Option String
  creator : Option String
  content_id : String
  reaction_type : String
  create_time : Option String
deriving Repr

def optStrToJson : Option String → Json
  | Option.none => Json.null
  | Option.some s => Json.str s

def Reaction.toJson (r : Reaction) : Json :=
  Json.obj
    [("name", optStrToJson r.name),
     ("creator", optStrToJson r.creator),
     ("contentId", Json.str r.content_id),
     ("reactionType", Json.str r.reaction_type),
     ("createTime", optStrToJson r.create_time)]

def decodeReaction (j : Json) : Except String Reaction := do
  let name ← defField j "name" Option.none decodeOptStr
  let creator ← defField j "creator" Option.none decodeOptStr
  let content_id ← defField j "contentId" "" decodeStr
  let reaction_type ← defField j "reactionType" "" decodeStr
  let create_time ← defField j "createTime" Option.none decodeOptStr
  Except.ok
    { name := name, creator := creator, content_id := content_id
      reaction_type := reaction_type, create_time := create_time }

/-- `Reaction::new`. -/
def Reaction.new (content_id reaction_type : String) : Reaction :=
  { name := Option.none, creator := Option.none, content_id := content_id
    reaction_type := reaction_type, create_time := Option.none }

/-- `note::Note` (camelCase wire keys; timestamps modelled as rendered
strings). -/
structure Note : Type where
  name : Option String
  state : NoteState
  creator : Option String
  create_time : Option String
  update_time : Option String
  display_time : Option String
  content : String
  visibility : Visibility
  tags : List String
  pinned : Bool
  attachments : List Attachment
  relations : List Relation
  reactions : List Reaction
  property : Option Json
  parent : String
  snippet : String
  location : Option String
deriving Repr

def optJsonToJson : Option Json → Json
  | Option.none => Json.null
  | Option.some v => v

def Note.toJson (n : Note) : Json :=
  Json.obj
    [("name", optStrToJson n.name),
     ("state", n.state.toJson),
     ("creator", optStrToJson n.creator),
     ("createTime", optStrToJson n.create_time),
     ("updateTime", optStrToJson n.update_time),
     ("displayTime", optStrToJson n.display_time),
     ("content", Json.str n.content),
     ("visibility", n.visibility.toJson),
     ("tags", Json.arr (n.tags.map Json.str)),
     ("pinned", Json.bool n.pinned),
     ("attachments", Json.arr (n.attachments.map Attachment.toJson)),
     ("relations", Json.arr (n.relations.map Relation.toJson)),
     ("reactions", Json.arr (n.reactions.map Reaction.toJson)),
     ("property", optJsonToJson n.property),
     ("parent", Json.str n.parent),
     ("snippet", Json.str n.snippet),
     ("location", optStrToJson n.location)]

/-- Decoder for `Note`.  serde's derive treats a missing `Option` field as
`None` (so `update_time`/`display_time` need no `#[serde(default)]` to be
omittable); `state`, `content` and `visibility` are required, and the
remaining defaulted fields fall back to their defaults when missing. -/
def decodeNote (j : Json) : Except String Note := do
  let name ← defField j "name" Option.none decodeOptStr
  let state ← reqField j "state" >>= decodeNoteState
  let creator ← defField j "creator" Option.none decodeOptStr
  let create_time ← defField j "createTime" Option.none decodeOptStr
  let update_time ← defField j "updateTime" Option.none decodeOptStr
  let display_time ← defField j "displayTime" Option.none decodeOptStr
  let content ← reqField j "content" >>= decodeStr
  let visibility ← reqField j "visibility" >>= decodeVisibility
  let tags ← defField j "tags" [] (decodeList decodeStr)
  let pinned ← defField j "pinned" false decodeBool
  let attachments ← defField j "attachments" [] (decodeList decodeAttachment)
  let relations ← defField j "relations" [] (decodeList decodeRelation)
  let reactions ← defField j "reactions" [] (decodeList decodeReaction)
  let property ← defField j "property" Option.none decodeOptJson
  let parent ← defField j "parent" "" decodeStr
  let snippet ← defField j "snippet" "" decodeStr
  let location ← defField j "location" Option.none decodeOptStr
  Except.ok
    { name := name, state := state, creator := creator
      create_time := create_time, update_time := update_time
      display_time := display_time, content := content
      visibility := visibility, tags := tags, pinned := pinned
      attachments := attachments, relations := relations
      reactions := reactions, property := property, parent := parent
      snippet := snippet, location := location }

/-- `Note::new`. -/
def Note.new (content : String) : Note :=
  { name := Option.none, state := NoteState.Normal, creator := Option.none
    create_time := Option.none, update_time := Option.none
    display_time := Option.none, content := content
    visibility := Visibility.Private, tags := [], pinned := false
    attachments := [], relations := [], reactions := []
    property := Option.none, parent := "", snippet := ""
    location := Option.none }

/-- The `NotesRespones` wrapper private to `list_notes`: a `memos` array
plus a `nextPageToken` cursor defaulting to the empty string. -/
structure NotesResponse : Type where
  memos : List Note
  next_page_token : String
deriving Repr

def decodeNotesResponse (j : Json) : Except String NotesResponse := do
  let memos ← reqField j "memos" >>= decodeList decodeNote
  let next_page_token ← defField j "nextPageToken" "" decodeStr
  Except.ok { memos := memos, next_page_token := next_page_token }

/-- The `CommentsResponse` wrapper private to `list_note_comments`: a
`memos` array. -/
def decodeCommentsResponse (j : Json) : Except String (List Note) :=
  reqField j "memos" >>= decodeList decodeNote

/-! ### Auth-service data model (src/memos/service/auth.rs) -/

/-- `auth::Role` (includes `HOST`). -/
inductive AuthRole : Type where
  | RoleUnspecified | Host | Admin | User
deriving Repr, DecidableEq

def decodeAuthRole : Json → Except String AuthRole
  | .str "ROLE_UNSPECIFIED" => Except.ok AuthRole.RoleUnspecified
  | .str "HOST" => Except.ok AuthRole.Host
  | .str "ADMIN" => Except.ok AuthRole.Admin
  | .str "USER" => Except.ok AuthRole.User
  | _ => Except.error "unknown variant for Role"

/-- `auth::State`. -/
inductive AuthState : Type where
  | StateUnspecified | Normal | Archived
deriving Repr, DecidableEq

def decodeAuthState : Json → Except String AuthState
  | .str "STATE_UNSPECIFIED" => Except.ok AuthState.StateUnspecified
  | .str "NORMAL" => Except.ok AuthState.Normal
  | .str "ARCHIVED" => Except.ok AuthState.Archived
  | _ => Except.error "unknown variant for State"

/-- `auth::User`: the authentication-context user record.  Its
`display_name` field carries wire key `displayName`. -/
structure AuthUser : Type where
  name : String
  role : AuthRole
  username : String
  email : String
  display_name : String
  avatar_url : String
  description : String
  state : AuthState
deriving Repr

def decodeAuthUser (j : Json) : Except String AuthUser := do
  let name ← defField j "name" "" decodeStr
  let role ← reqField j "role" >>= decodeAuthRole
  let username ← reqField j "username" >>= decodeStr
  let email ← defField j "email" "" decodeStr
  let display_name ← defField j "displayName" "" decodeStr
  let avatar_url ← defField j "avatarUrl" "" decodeStr
  let description ← defField j "description" "" decodeStr
  let state ← reqField j "state" >>= decodeAuthState
  Except.ok
    { name := name, role := role, username := username, email := email
      display_name := display_name, avatar_url := avatar_url
      description := description, state := state }

/-- The `accessToken` wrapper decoded by `sign_in`. -/
def decodeSignInResponse (j : Json) : Except String String :=
  reqField j "accessToken" >>= decodeStr

/-! ### User-service data model (src/memos/service/user.rs) -/

/-- `user::Role` (no `HOST` variant). -/
inductive UserRole : Type where
  | RoleUnspecified | Admin | User
deriving Repr, DecidableEq

def decodeUserRole : Json → Except String UserRole
  | .str "ROLE_UNSPECIFIED" => Except.ok UserRole.RoleUnspecified
  | .str "ADMIN" => Except.ok UserRole.Admin
  | .str "USER" => Except.ok UserRole.User
  | _ => Except.error "unknown variant for Role"

/-- `user::State`. -/
inductive UserState : Type where
  | StateUnspecified | Normal | Archived
deriving Repr, DecidableEq

def decodeUserState : Json → Except String UserState
  | .str "STATE_UNSPECIFIED" => Except.ok UserState.StateUnspecified
  | .str "NORMAL" => Except.ok UserState.Normal
  | .str "ARCHIVED" => Except.ok UserState.Archived
  | _ => Except.error "unknown variant for State"

/-- `user::User`: the user-management-context user record.  Its
`display_name` field carries wire key `displayname` (lower-case `n`),
unlike the authentication-context record. -/
structure MgmtUser : Type where
  name : String
  role : UserRole
  username : String
  email : String
  display_name : String
  avatar_url : String
  description : String
  password : String
  state : UserState
deriving Repr

def decodeMgmtUser (j : Json) : Except String MgmtUser := do
  let name ← defField j "name" "" decodeStr
  let role ← reqField j "role" >>= decodeUserRole
  let username ← reqField j "username" >>= decodeStr
  let email ← defField j "email" "" decodeStr
  let display_name ← defField j "displayname" "" decodeStr
  let avatar_url ← defField j "avatarUrl" "" decodeStr
  let description ← defField j "description" "" decodeStr
  let password ← defField j "password" "" decodeStr
  let state ← reqField j "state" >>= decodeUserState
  Except.ok
    { name := name, role := role, username := username, email := email
      display_name := display_name, avatar_url := avatar_url
      description := description, password := password, state := state }

/-! ### Service operations

Each operation is the source function with the transport made explicit; it
returns its result together with the ordered list of requests it sent.  A
Rust panic (`Option::unwrap()` on `None`) is modelled by `RunResult.panic`,
a distinct outcome from a returned `Err`. -/

/-- Outcome of running a fallible (and possibly panicking) operation. -/
inductive RunResult (α : Type) : Type where
  | ok : α → RunResult α
  | err : String → RunResult α
  | panic : String → RunResult α
deriving Repr

def RunResult.isErr {α : Type} : RunResult α → Bool
  | .err _ => true
  | _ => false

def RunResult.isPanic {α : Type} : RunResult α → Bool
  | .panic _ => true
  | _ => false

/-- Message of the Rust panic raised by `Option::unwrap()` on `None`. -/
def unwrapPanicMsg : String := "called Option::unwrap() on a None value"

/-- Sending a built request: a transport-level error is propagated by `?`. -/
def send (t : Transport) (r : Request) : Except String HttpResponse :=
  match t r with
  | .netErr m => Except.error m
  | .response rsp => Except.ok rsp

/-- `NoteService::get_note`. -/
def get_note (s : Server) (t : Transport) (note_name : String) :
    Except String Note × List Request :=
  let req := build_get_request s note_name
  ((send t req).bind (validate_data_response decodeNote), [req])

/-- `NoteService::create_note`. -/
def create_note (s : Server) (t : Transport) (note : Note) :
    Except String Note × List Request :=
  let req := (build_post_request s "memos").withJson note.toJson
  ((send t req).bind (validate_data_response decodeNote), [req])

/-- `NoteService::create_note_comment`. -/
def create_note_comment (s : Server) (t : Transport) (note_name : String)
    (comment : Note) : Except String Note × List Request :=
  let req := (build_post_request s (note_name ++ "/comments")).withJson comment.toJson
  ((send t req).bind (validate_data_response decodeNote), [req])

/-- `NoteService::delete_note`. -/
def delete_note (s : Server) (t : Transport) (note_name : String) :
    Except String Unit × List Request :=
  let req := build_delete_request s note_name
  ((send t req).bind validate_response, [req])

/-- `NoteService::list_note_comments`. -/
def list_note_comments (s : Server) (t : Transport) (note_name : String) :
    Except String (List Note) × List Request :=
  let req := build_get_request s (note_name ++ "/comments")
  ((send t req).bind (validate_data_response decodeCommentsResponse), [req])

/-- The literal update-mask query suffix appended by `update_note`. -/
def updateMaskQuery : String := "?updateMask=content,state,visibility,tags,pinned"

/-- `NoteService::update_note`.  The source evaluates
`note.name.as_ref().unwrap()` while formatting the endpoint, so an absent
`name` panics before any request is built or sent. -/
def update_note (s : Server) (t : Transport) (note : Note) :
    RunResult Note × List Request :=
  match note.name with
  | Option.none => (RunResult.panic unwrapPanicMsg, [])
  | Option.some name =>
      let req := (build_patch_request s (name ++ updateMaskQuery)).withJson note.toJson
      match (send t req).bind (validate_data_response decodeNote) with
      | Except.ok n => (RunResult.ok n, [req])
      | Except.error e => (RunResult.err e, [req])

/-- The draining loop of `NoteService::list_notes`, with explicit fuel for
the unbounded `loop`.  Each iteration requests `memos`, or
`memos?pageToken=<token>` when the previous page's cursor was non-empty,
appends the page's `memos` in order, and stops when the cursor is empty. -/
def list_notes_loop (s : Server) (t : Transport) :
    Nat → List Note → String → List Request →
    Except String (List Note) × List Request
  | 0, _, _, trace => (Except.error "fuel exhausted", trace)
  | Nat.succ fuel, acc, tok, trace =>
      let endpoint := if !tok.isEmpty then "memos?pageToken=" ++ tok else "memos"
      let req := build_get_request s endpoint
      match (send t req).bind (validate_data_response decodeNotesResponse) with
      | Except.error e => (Except.error e, trace ++ [req])
      | Except.ok page =>
          let acc := acc ++ page.memos
          if !page.next_page_token.isEmpty then
            list_notes_loop s t fuel acc page.next_page_token (trace ++ [req])
          else
            (Except.ok acc, trace ++ [req])

/-- `NoteService::list_notes`: starts with an empty accumulator and an
empty cursor. -/
def list_notes (s : Server) (t : Transport) (fuel : Nat) :
    Except String (List Note) × List Request :=
  list_notes_loop s t fuel [] "" []

/-- `AuthService::sign_in`: POSTs the password credentials, decodes the
`accessToken` wrapper, and builds a new `Server` with the caller's
`base_url`, the returned token, and `sign_out_required := true`. -/
def sign_in (s : Server) (t : Transport) (username password : String) :
    Except String Server × List Request :=
  let body :=
    Json.obj
      [("passwordCredentials",
        Json.obj [("username", Json.str username), ("password", Json.str password)])]
  let req := (build_post_request s "auth/signin").withJson body
  match (send t req).bind (validate_data_response decodeSignInResponse) with
  | Except.error e => (Except.error e, [req])
  | Except.ok access_token =>
      (Except.ok
        { base_url := s.base_url, token := access_token, sign_out_required := true },
       [req])

/-- `Server::cleanup`: a derived session POSTs to `auth/signout` (only a
send error propagates; the response is not validated); a root session does
nothing. -/
def cleanup (s : Server) (t : Transport) : Except String Unit × List Request :=
  if s.sign_out_required then
    let req := build_post_request s "auth/signout"
    match t req with
    | .netErr m => (Except.error m, [req])
    | .response _ => (Except.ok (), [req])
  else
    (Except.ok (), [])

/-! ### Tool dispatcher (src/mcp/mod.rs)

Each tool matches the service result: `Ok` is encoded as the JSON of the
typed value, `Err` as `{"error": <message>}`.  A panic inside the tool body
(the `unwrap()` in `delete_memo`, or the one reached through `update_note`)
escapes without being encoded; it is modelled by `ToolOutcome.panicked`. -/

/-- What one tool invocation delivers to the caller: an encoded JSON
payload, or an escaped panic. -/
inductive ToolOutcome : Type where
  | payload : Json → ToolOutcome
  | panicked : String → ToolOutcome
deriving Repr

def ToolOutcome.isPayload : ToolOutcome → Bool
  | .payload _ => true
  | .panicked _ => false

/-- `json!({"error": e})`. -/
def errEnvelope (e : String) : Json :=
  Json.obj [("error", Json.str e)]

/-- `MemoMCP::list_memos`. -/
def list_memos (s : Server) (t : Transport) (fuel : Nat) :
    ToolOutcome × List Request :=
  match list_notes s t fuel with
  | (Except.ok notes, tr) => (ToolOutcome.payload (Json.arr (notes.map Note.toJson)), tr)
  | (Except.error e, tr) => (ToolOutcome.payload (errEnvelope e), tr)

/-- `MemoMCP::get_memo`. -/
def get_memo (s : Server) (t : Transport) (name : String) :
    ToolOutcome × List Request :=
  match get_note s t name with
  | (Except.ok note, tr) => (ToolOutcome.payload note.toJson, tr)
  | (Except.error e, tr) => (ToolOutcome.payload (errEnvelope e), tr)

/-- `MemoMCP::create_memo`. -/
def create_memo (s : Server) (t : Transport) (note : Note) :
    ToolOutcome × List Request :=
  match create_note s t note with
  | (Except.ok note, tr) => (ToolOutcome.payload note.toJson, tr)
  | (Except.error e, tr) => (ToolOutcome.payload (errEnvelope e), tr)

/-- `MemoMCP::update_memo`: delegates to `update_note`, whose panic on an
absent `name` escapes the dispatcher unencoded. -/
def update_memo (s : Server) (t : Transport) (note : Note) :
    ToolOutcome × List Request :=
  match update_note s t note with
  | (RunResult.ok note, tr) => (ToolOutcome.payload note.toJson, tr)
  | (RunResult.err e, tr) => (ToolOutcome.payload (errEnvelope e), tr)
  | (RunResult.panic m, tr) => (ToolOutcome.panicked m, tr)

/-- `MemoMCP::delete_memo`: evaluates `note.name.as_ref().unwrap()` before
calling `delete_note`, so an absent `name` panics with no request sent. -/
def delete_memo (s : Server) (t : Transport) (note : Note) :
    ToolOutcome × List Request :=
  match note.name with
  | Option.none => (ToolOutcome.panicked unwrapPanicMsg, [])
  | Option.some n =>
      match delete_note s t n with
      | (Except.ok _, tr) =>
          (ToolOutcome.payload (Json.obj [("status", Json.str "success")]), tr)
      | (Except.error e, tr) => (ToolOutcome.payload (errEnvelope e), tr)

/-- `MemoMCP::create_memo_comment`. -/
def create_memo_comment (s : Server) (t : Transport) (memo_name : String)
    (comment : Note) : ToolOutcome × List Request :=
  match create_note_comment s t memo_name comment with
  | (Except.ok c, tr) => (ToolOutcome.payload c.toJson, tr)
  | (Except.error e, tr) => (ToolOutcome.payload (errEnvelope e), tr)

/-- `MemoMCP::list_memo_comments`. -/
def list_memo_comments (s : Server) (t : Transport) (name : String) :
    ToolOutcome × List Request :=
  match list_note_comments s t name with
  | (Except.ok cs, tr) => (ToolOutcome.payload (Json.arr (cs.map Note.toJson)), tr)
  | (Except.error e, tr) => (ToolOutcome.payload (errEnvelope e), tr)

/-! ### Concrete fixtures used to instantiate the theorems -/

/-- A transport on which every send fails (a mock asserting that any
network access would be visible as a request in the trace). -/
def noNetwork : Transport := fun _ => TransportResult.netErr "connection refused"

/-- A transport on which every request yields a 404 with a plain body. -/
def alwaysNotFound : Transport := fun _ =>
  TransportResult.response { status := 404, body := Json.str "not found" }

def demoServer : Server := Server.new "localhost:5230" "memos_pat_demo"

def derivedServer : Server :=
  { base_url := demoServer.base_url, token := "derived_tok", sign_out_required := true }

/-- One page of the list endpoint's wire format. -/
def pageJson (notes : List Note) (tok : String) : Json :=
  Json.obj [("memos", Json.arr (notes.map Note.toJson)), ("nextPageToken", Json.str tok)]

/-- A synthetic server serving three pages: cursors on pages 1 and 2, none
on page 3. -/
def threePageTransport : Transport := fun r =>
  if r.url = "http://localhost:5230/api/v1/memos" then
    TransportResult.response { status := 200, body := pageJson [Note.new "a"] "tok1" }
  else if r.url = "http://localhost:5230/api/v1/memos?pageToken=tok1" then
    TransportResult.response { status := 200, body := pageJson [Note.new "b"] "tok2" }
  else if r.url = "http://localhost:5230/api/v1/memos?pageToken=tok2" then
    TransportResult.response { status := 200, body := pageJson [Note.new "c"] "" }
  else
    TransportResult.response { status := 400, body := Json.str "unexpected" }

/-- A synthetic server whose first page succeeds with a cursor and whose
second page fails with a 500. -/
def failingPageTransport : Transport := fun r =>
  if r.url = "http://localhost:5230/api/v1/memos" then
    TransportResult.response { status := 200, body := pageJson [Note.new "a"] "tok1" }
  else
    TransportResult.response { status := 500, body := Json.str "boom" }

/-- A transport whose sign-in endpoint answers with an access token. -/
def signInOkTransport : Transport := fun r =>
  if r.url = "http://localhost:5230/api/v1/auth/signin" then
    TransportResult.response
      { status := 200, body := Json.obj [("accessToken", Json.str "tok123")] }
  else
    TransportResult.response { status := 400, body := Json.str "unexpected" }

/-- A wire user object carrying `displayName` but no `displayname`. -/
def demoUserJson : Json :=
  Json.obj
    [("role", Json.str "USER"),
     ("username", Json.str "alice"),
     ("state", Json.str "NORMAL"),
     ("displayName", Json.str "Alice")]

def demoAuthUser : AuthUser :=
  { name := "", role := AuthRole.User, username := "alice", email := ""
    display_name := "Alice", avatar_url := "", description := ""
    state := AuthState.Normal }

def demoMgmtUser : MgmtUser :=
  { name := "", role := UserRole.User, username := "alice", email := ""
    display_name := "", avatar_url := "", description := "", password := ""
    state := UserState.Normal }

/-- A note that already carries a server-assigned name. -/
def namedNote : Note :=
  { Note.new "hello" with name := Option.some "memos/42" }

/-- The endpoint `list_notes` requests for a given cursor: `pageToken` is
sent exactly when the previous cursor was non-empty. -/
def listEndpoint (tok : String) : String :=
  if !tok.isEmpty then "memos?pageToken=" ++ tok else "memos"

/-! ### Helper lemmas -/

/-- A successful `Except` bind factors through a successful first stage. -/
theorem except_bind_ok {α β : Type} {x : Except String α}
    {f : α → Except String β} {b : β} (h : x.bind f = Except.ok b) :
    ∃ a, x = Except.ok a ∧ f a = Except.ok b := by
  cases x with
  | error e => exact absurd h (by simp [Except.bind])
  | ok a => exact ⟨a, rfl, h⟩

/-- One unfolding step of the pagination loop. -/
theorem list_notes_loop_succ (s : Server) (t : Transport) (fuel : Nat)
    (acc : List Note) (tok : String) (trace : List Request) :
    list_notes_loop s t (fuel + 1) acc tok trace =
      (let endpoint := if !tok.isEmpty then "memos?pageToken=" ++ tok else "memos"
       let req := build_get_request s endpoint
       match (send t req).bind (validate_data_response decodeNotesResponse) with
       | Except.error e => (Except.error e, trace ++ [req])
       | Except.ok page =>
           if !page.next_page_token.isEmpty then
             list_notes_loop s t fuel (acc ++ page.memos) page.next_page_token
               (trace ++ [req])
           else
             (Except.ok (acc ++ page.memos), trace ++ [req])) := rfl

/-! ### Claim theorems -/

/-- C1 (counterexample): calling `update` on a Note whose `name` is absent
does not fail with a returned contract-violation error: the
`Option::unwrap()` in `update_note` panics instead (with no request sent),
a different failure mechanism than the claimed error. -/
theorem c1_update_missing_name_panics_cex :
    (update_note demoServer noNetwork (Note.new "hello")).fst
      = RunResult.panic unwrapPanicMsg
    ∧ ((update_note demoServer noNetwork (Note.new "hello")).fst).isErr = false
    ∧ (update_note demoServer noNetwork (Note.new "hello")).snd = [] :=
  ⟨rfl, rfl, rfl⟩

/-- C1 (amended): for every Note whose `name` field is absent, `update`
(service `update_note`) and `delete` (dispatcher `delete_memo`) fail before
any network request is built or sent — zero transport invocations — but by
panicking on `unwrap()` of the absent name, not by returning a
contract-violation error. -/
theorem c1_update_delete_missing_name_zero_requests (s : Server)
    (t : Transport) (note : Note) (h : note.name = Option.none) :
    update_note s t note = (RunResult.panic unwrapPanicMsg, [])
    ∧ delete_memo s t note = (ToolOutcome.panicked unwrapPanicMsg, []) := by
  unfold update_note delete_memo
  rw [h]
  exact ⟨rfl, rfl⟩

theorem c1_update_delete_missing_name_zero_requests_witness :
    (Note.new "hello").name = Option.none
    ∧ update_note demoServer noNetwork (Note.new "hello")
        = (RunResult.panic unwrapPanicMsg, [])
    ∧ delete_memo demoServer noNetwork (Note.new "hello")
        = (ToolOutcome.panicked unwrapPanicMsg, []) :=
  ⟨rfl,
   (c1_update_delete_missing_name_zero_requests demoServer noNetwork
      (Note.new "hello") rfl).1,
   (c1_update_delete_missing_name_zero_requests demoServer noNetwork
      (Note.new "hello") rfl).2⟩

/-- C5: response validation returns the decoded typed body (resp. unit for
void operations) exactly on a 2xx status; on any other status it returns
exactly the error `Request failed: <status> - <body>` built from the status
code and the raw body text, and never consults the typed decoder (the
result is the same for every decoder). -/
theorem c5_validate_classification {α : Type} (decode : Json → Except String α)
    (rsp : HttpResponse) :
    (statusIsSuccess rsp.status = true →
       validate_data_response decode rsp = decode rsp.body
       ∧ validate_response rsp = Except.ok ())
    ∧ (statusIsSuccess rsp.status = false →
       validate_data_response decode rsp =
         Except.error
           ("Request failed: " ++ toString rsp.status ++ " - " ++ rsp.body.render)
       ∧ validate_response rsp =
         Except.error
           ("Request failed: " ++ toString rsp.status ++ " - " ++ rsp.body.render)
       ∧ ∀ decode2 : Json → Except String α,
           validate_data_response decode rsp = validate_data_response decode2 rsp) := by
  refine ⟨fun h => ⟨?_, ?_⟩, fun h => ⟨?_, ?_, fun decode2 => ?_⟩⟩ <;>
    simp [validate_data_response, validate_response, h]

theorem c5_validate_classification_witness :
    statusIsSuccess 200 = true
    ∧ validate_data_response decodeSignInResponse
        { status := 200, body := Json.obj [("accessToken", Json.str "tok123")] }
        = decodeSignInResponse (Json.obj [("accessToken", Json.str "tok123")])
    ∧ statusIsSuccess 404 = false
    ∧ validate_data_response decodeSignInResponse
        { status := 404, body := Json.str "not found" }
        = Except.error
            ("Request failed: " ++ toString 404 ++ " - " ++ (Json.str "not found").render) :=
  ⟨rfl,
   ((c5_validate_classification decodeSignInResponse
      { status := 200, body := Json.obj [("accessToken", Json.str "tok123")] }).1 rfl).1,
   rfl,
   ((c5_validate_classification decodeSignInResponse
      { status := 404, body := Json.str "not found" }).2 rfl).1⟩

/-- C6: session teardown issues a POST to the sign-out endpoint if and only
if the session is derived: a derived session's `cleanup` sends exactly the
one sign-out request, and a root session's `cleanup` sends nothing and
returns unit. -/
theorem c6_cleanup_signout_iff_derived (s : Server) (t : Transport) :
    (s.sign_out_required = true →
       (cleanup s t).snd = [build_post_request s "auth/signout"])
    ∧ (s.sign_out_required = false → cleanup s t = (Except.ok (), [])) := by
  refine ⟨fun h => ?_, fun h => ?_⟩
  · unfold cleanup
    rw [h]
    cases ht : t (build_post_request s "auth/signout") <;> simp [ht]
  · unfold cleanup
    rw [h]
    rfl

theorem c6_cleanup_signout_iff_derived_witness :
    derivedServer.sign_out_required = true
    ∧ (cleanup derivedServer noNetwork).snd
        = [build_post_request derivedServer "auth/signout"]
    ∧ demoServer.sign_out_required = false
    ∧ cleanup demoServer noNetwork = (Except.ok (), []) :=
  ⟨rfl, (c6_cleanup_signout_iff_derived derivedServer noNetwork).1 rfl,
   rfl, (c6_cleanup_signout_iff_derived demoServer noNetwork).2 rfl⟩

/-- C9: the base URL is fixed at construction — `Server::new` yields
exactly `http://<host>/api/v1` with the supplied token and a root
session — and the only way a credential changes hands is the new session
built by `sign_in`, which carries the caller's unchanged `base_url` (the
embedded operations are pure functions of the session, mirroring the `&self`
receivers: no operation returns a mutated session). -/
theorem c9_base_url_fixed_at_construction (host tok u p : String)
    (s s2 : Server) (t : Transport)
    (hs : (sign_in s t u p).fst = Except.ok s2) :
    Server.new host tok =
      { base_url := "http://" ++ host ++ "/api/v1", token := tok
        sign_out_required := false }
    ∧ s2.base_url = s.base_url ∧ s2.sign_out_required = true := by
  refine ⟨rfl, ?_, ?_⟩ <;>
  · rcases hv : (send t ((build_post_request s "auth/signin").withJson
        (Json.obj [("passwordCredentials",
          Json.obj [("username", Json.str u), ("password", Json.str p)])]))).bind
        (validate_data_response decodeSignInResponse) with e | tk
    all_goals simp [sign_in, hv] at hs
    all_goals rw [← hs]

theorem c9_base_url_fixed_at_construction_witness :
    (sign_in demoServer signInOkTransport "alice" "pw").fst
      = Except.ok
          { base_url := demoServer.base_url, token := "tok123"
            sign_out_required := true }
    ∧ Server.new "localhost:5230" "memos_pat_demo" =
        { base_url := "http://" ++ "localhost:5230" ++ "/api/v1"
          token := "memos_pat_demo", sign_out_required := false }
    ∧ ({ base_url := demoServer.base_url, token := "tok123"
         sign_out_required := true } : Server).base_url = demoServer.base_url :=
  ⟨rfl,
   (c9_base_url_fixed_at_construction "localhost:5230" "memos_pat_demo"
      "alice" "pw" demoServer _ signInOkTransport rfl).1,
   (c9_base_url_fixed_at_construction "localhost:5230" "memos_pat_demo"
      "alice" "pw" demoServer _ signInOkTransport rfl).2.1⟩

/-- C10: the authentication-context user decoder reads the display name
from wire key `displayName` while the user-management-context decoder reads
it from `displayname`; on a JSON object carrying `displayName` but not
`displayname`, the former yields that display name and the latter yields
the empty string. -/
theorem c10_display_name_key_divergence (j : Json) (d : String)
    (h1 : j.lookup "displayName" = Option.some (Json.str d))
    (h2 : j.lookup "displayname" = Option.none) :
    (∀ u : AuthUser, decodeAuthUser j = Except.ok u → u.display_name = d)
    ∧ (∀ u : MgmtUser, decodeMgmtUser j = Except.ok u → u.display_name = "") := by
  constructor
  · intro u hu
    unfold decodeAuthUser at hu
    obtain ⟨name, hname, hu⟩ := except_bind_ok hu
    obtain ⟨role, hrole, hu⟩ := except_bind_ok hu
    obtain ⟨username, husername, hu⟩ := except_bind_ok hu
    obtain ⟨email, hemail, hu⟩ := except_bind_ok hu
    obtain ⟨dn, hdn, hu⟩ := except_bind_ok hu
    obtain ⟨avatar, havatar, hu⟩ := except_bind_ok hu
    obtain ⟨desc, hdesc, hu⟩ := except_bind_ok hu
    obtain ⟨st, hst, hu⟩ := except_bind_ok hu
    rw [defField, h1] at hdn
    simp [decodeStr] at hdn
    injection hu with hu
    rw [← hu, hdn]
  · intro u hu
    unfold decodeMgmtUser at hu
    obtain ⟨name, hname, hu⟩ := except_bind_ok hu
    obtain ⟨role, hrole, hu⟩ := except_bind_ok hu
    obtain ⟨username, husername, hu⟩ := except_bind_ok hu
    obtain ⟨email, hemail, hu⟩ := except_bind_ok hu
    obtain ⟨dn, hdn, hu⟩ := except_bind_ok hu
    obtain ⟨avatar, havatar, hu⟩ := except_bind_ok hu
    obtain ⟨desc, hdesc, hu⟩ := except_bind_ok hu
    obtain ⟨pw, hpw, hu⟩ := except_bind_ok hu
    obtain ⟨st, hst, hu⟩ := except_bind_ok hu
    rw [defField, h2] at hdn
    injection hdn with hdn
    injection hu with hu
    rw [← hu, ← hdn]

theorem c10_display_name_key_divergence_witness :
    demoUserJson.lookup "displayName" = Option.some (Json.str "Alice")
    ∧ demoUserJson.lookup "displayname" = Option.none
    ∧ demoAuthUser.display_name = "Alice"
    ∧ demoMgmtUser.display_name = "" :=
  ⟨rfl, rfl,
   (c10_display_name_key_divergence demoUserJson "Alice" rfl rfl).1
     demoAuthUser rfl,
   (c10_display_name_key_divergence demoUserJson "Alice" rfl rfl).2
     demoMgmtUser rfl⟩

/-- C3: `list()` pages through the list endpoint following the cursor —
the first request carries no `pageToken`, each later one carries the
previous response's non-empty cursor — accumulates the pages in order and
stops exactly at the empty cursor: on a server serving three pages with
cursors `tok1`, `tok2`, and then an empty cursor, the result is the ordered
concatenation of the three pages (for any sufficient fuel), the requests
are exactly the three cursor-driven GETs in order, and the length is the
sum of the page lengths. -/
theorem c3_list_notes_three_pages (s : Server) (t : Transport) (n : Nat)
    (p1 p2 p3 : List Note) (j1 j2 j3 : Json)
    (h1 : t (build_get_request s "memos")
        = TransportResult.response { status := 200, body := j1 })
    (hd1 : decodeNotesResponse j1
        = Except.ok { memos := p1, next_page_token := "tok1" })
    (h2 : t (build_get_request s "memos?pageToken=tok1")
        = TransportResult.response { status := 200, body := j2 })
    (hd2 : decodeNotesResponse j2
        = Except.ok { memos := p2, next_page_token := "tok2" })
    (h3 : t (build_get_request s "memos?pageToken=tok2")
        = TransportResult.response { status := 200, body := j3 })
    (hd3 : decodeNotesResponse j3
        = Except.ok { memos := p3, next_page_token := "" }) :
    list_notes s t (n + 3) =
      (Except.ok (p1 ++ p2 ++ p3),
       [build_get_request s "memos",
        build_get_request s "memos?pageToken=tok1",
        build_get_request s "memos?pageToken=tok2"])
    ∧ (p1 ++ p2 ++ p3).length = p1.length + p2.length + p3.length := by
  constructor
  · have s1 : list_notes_loop s t (n + 2 + 1) [] "" [] =
        list_notes_loop s t (n + 1 + 1) p1 "tok1" [build_get_request s "memos"] := by
      rw [list_notes_loop_succ]
      simp [send, validate_data_response, Except.bind, h1, hd1,
            show ("" : String).isEmpty = true from rfl,
            show statusIsSuccess 200 = true from rfl,
            show ("tok1" : String).isEmpty = false from rfl,
            show n + 1 + 1 = n + 2 from rfl]
    have s2 : list_notes_loop s t (n + 1 + 1) p1 "tok1" [build_get_request s "memos"] =
        list_notes_loop s t (n + 1) (p1 ++ p2) "tok2"
          [build_get_request s "memos", build_get_request s "memos?pageToken=tok1"] := by
      rw [list_notes_loop_succ]
      simp [send, validate_data_response, Except.bind, h2, hd2,
            show ("tok1" : String).isEmpty = false from rfl,
            show statusIsSuccess 200 = true from rfl,
            show ("tok2" : String).isEmpty = false from rfl,
            show "memos?pageToken=" ++ "tok1" = "memos?pageToken=tok1" from rfl]
    have s3 : list_notes_loop s t (n + 1) (p1 ++ p2) "tok2"
          [build_get_request s "memos", build_get_request s "memos?pageToken=tok1"] =
        (Except.ok (p1 ++ p2 ++ p3),
         [build_get_request s "memos",
          build_get_request s "memos?pageToken=tok1",
          build_get_request s "memos?pageToken=tok2"]) := by
      rw [list_notes_loop_succ]
      simp [send, validate_data_response, Except.bind, h3, hd3,
            show ("tok2" : String).isEmpty = false from rfl,
            show statusIsSuccess 200 = true from rfl,
            show ("" : String).isEmpty = true from rfl,
            show "memos?pageToken=" ++ "tok2" = "memos?pageToken=tok2" from rfl]
    unfold list_notes
    rw [show n + 3 = n + 2 + 1 from rfl, s1, s2, s3]
  · simp
    omega

theorem c3_list_notes_three_pages_witness :
    list_notes demoServer threePageTransport 3 =
      (Except.ok [Note.new "a", Note.new "b", Note.new "c"],
       [build_get_request demoServer "memos",
        build_get_request demoServer "memos?pageToken=tok1",
        build_get_request demoServer "memos?pageToken=tok2"])
    ∧ ([Note.new "a"] ++ [Note.new "b"] ++ [Note.new "c"]).length
        = [Note.new "a"].length + [Note.new "b"].length + [Note.new "c"].length :=
  ⟨(c3_list_notes_three_pages demoServer threePageTransport 0
      [Note.new "a"] [Note.new "b"] [Note.new "c"]
      (pageJson [Note.new "a"] "tok1") (pageJson [Note.new "b"] "tok2")
      (pageJson [Note.new "c"] "")
      rfl rfl rfl rfl rfl rfl).1,
   (c3_list_notes_three_pages demoServer threePageTransport 0
      [Note.new "a"] [Note.new "b"] [Note.new "c"]
      (pageJson [Note.new "a"] "tok1") (pageJson [Note.new "b"] "tok2")
      (pageJson [Note.new "c"] "")
      rfl rfl rfl rfl rfl rfl).2⟩

/-- One unfolding step of the pagination loop, phrased with the endpoint
abbreviation and without local lets (used for induction). -/
theorem list_notes_loop_step (s : Server) (t : Transport) (fuel : Nat)
    (acc : List Note) (tok : String) (trace : List Request) :
    list_notes_loop s t (fuel + 1) acc tok trace =
      match (send t (build_get_request s (listEndpoint tok))).bind
          (validate_data_response decodeNotesResponse) with
      | Except.error e =>
          (Except.error e, trace ++ [build_get_request s (listEndpoint tok)])
      | Except.ok page =>
          if !page.next_page_token.isEmpty then
            list_notes_loop s t fuel (acc ++ page.memos) page.next_page_token
              (trace ++ [build_get_request s (listEndpoint tok)])
          else
            (Except.ok (acc ++ page.memos),
             trace ++ [build_get_request s (listEndpoint tok)]) := rfl

/-- If the pagination loop returns success, every request it issued beyond
the incoming trace received a 2xx response whose body decoded as a notes
page. -/
theorem list_notes_loop_ok_all_pages (s : Server) (t : Transport) :
    ∀ (fuel : Nat) (acc : List Note) (tok : String) (trace : List Request)
      (l : List Note) (tr : List Request),
      list_notes_loop s t fuel acc tok trace = (Except.ok l, tr) →
      ∀ req, req ∈ tr → req ∈ trace ∨
        ∃ page, (send t req).bind (validate_data_response decodeNotesResponse)
          = Except.ok page := by
  intro fuel
  induction fuel with
  | zero =>
      intro acc tok trace l tr h req hreq
      rw [show list_notes_loop s t 0 acc tok trace
          = (Except.error "fuel exhausted", trace) from rfl] at h
      simp at h
  | succ fuel ih =>
      intro acc tok trace l tr h req hreq
      rw [list_notes_loop_step] at h
      cases hv : (send t (build_get_request s (listEndpoint tok))).bind
          (validate_data_response decodeNotesResponse) with
      | error e =>
          simp only [hv] at h
          simp at h
      | ok page =>
          simp only [hv] at h
          by_cases hc : (!page.next_page_token.isEmpty) = true
          · rw [if_pos hc] at h
            rcases ih _ _ _ _ _ h req hreq with hin | hpage
            · rcases List.mem_append.mp hin with hin1 | hin2
              · exact Or.inl hin1
              · have hr : req = build_get_request s (listEndpoint tok) := by
                  simpa using hin2
                rw [hr]
                exact Or.inr ⟨page, hv⟩
            · exact Or.inr hpage
          · rw [if_neg hc] at h
            have htr : tr = trace ++ [build_get_request s (listEndpoint tok)] := by
              have := congrArg Prod.snd h
              simpa using this.symm
            rw [htr] at hreq
            rcases List.mem_append.mp hreq with hin1 | hin2
            · exact Or.inl hin1
            · have hr : req = build_get_request s (listEndpoint tok) := by
                simpa using hin2
              rw [hr]
              exact Or.inr ⟨page, hv⟩

/-- C4: for every transport (hence every sequence of page responses) and
every fuel, a successful `list()` requires every one of the requests it
issued to have received a 2xx response whose body decoded as a notes page;
consequently, whenever any issued page request failed in any mode (send
error, non-2xx status, or undecodable body), the whole call returns an
error and equals `Except.ok l` for no `l` — notes accumulated from earlier
successful pages are never returned. -/
theorem c4_list_notes_failing_page_whole_call_fails (s : Server)
    (t : Transport) (fuel : Nat) :
    (∀ l tr, list_notes s t fuel = (Except.ok l, tr) →
        ∀ req, req ∈ tr → ∃ page,
          (send t req).bind (validate_data_response decodeNotesResponse)
            = Except.ok page)
    ∧ (∀ req, req ∈ (list_notes s t fuel).snd →
        (∀ page, (send t req).bind (validate_data_response decodeNotesResponse)
            ≠ Except.ok page) →
        ∃ e, (list_notes s t fuel).fst = Except.error e
          ∧ ∀ l : List Note, (list_notes s t fuel).fst ≠ Except.ok l) := by
  have hok : ∀ l tr, list_notes s t fuel = (Except.ok l, tr) →
      ∀ req, req ∈ tr → ∃ page,
        (send t req).bind (validate_data_response decodeNotesResponse)
          = Except.ok page := by
    intro l tr h req hreq
    rcases list_notes_loop_ok_all_pages s t fuel [] "" [] l tr h req hreq with
      hin | hpage
    · simp at hin
    · exact hpage
  refine ⟨hok, ?_⟩
  intro req hreq hfail
  cases hres : (list_notes s t fuel).fst with
  | error e =>
      exact ⟨e, rfl, fun l hl => Except.noConfusion hl⟩
  | ok l =>
      have hfull : list_notes s t fuel = (Except.ok l, (list_notes s t fuel).snd) := by
        rw [← hres]
      obtain ⟨page, hpage⟩ := hok l (list_notes s t fuel).snd hfull req hreq
      exact absurd hpage (hfail page)

theorem c4_list_notes_failing_page_whole_call_fails_witness :
    list_notes demoServer failingPageTransport 2 =
      (Except.error
         ("Request failed: " ++ toString 500 ++ " - " ++ (Json.str "boom").render),
       [build_get_request demoServer "memos",
        build_get_request demoServer "memos?pageToken=tok1"])
    ∧ (list_notes demoServer failingPageTransport 2).fst
        ≠ Except.ok [Note.new "a"] := by
  have hmem : build_get_request demoServer "memos?pageToken=tok1"
      ∈ (list_notes demoServer failingPageTransport 2).snd := by
    rw [show (list_notes demoServer failingPageTransport 2).snd
        = [build_get_request demoServer "memos",
           build_get_request demoServer "memos?pageToken=tok1"] from rfl]
    exact List.mem_cons_of_mem _ (List.mem_singleton.mpr rfl)
  have hfail : ∀ page,
      (send failingPageTransport
          (build_get_request demoServer "memos?pageToken=tok1")).bind
        (validate_data_response decodeNotesResponse) ≠ Except.ok page := by
    intro page hp
    rw [show (send failingPageTransport
          (build_get_request demoServer "memos?pageToken=tok1")).bind
        (validate_data_response decodeNotesResponse)
        = Except.error
            ("Request failed: " ++ toString 500 ++ " - " ++ (Json.str "boom").render)
      from rfl] at hp
    exact Except.noConfusion hp
  obtain ⟨e, _, hne⟩ :=
    (c4_list_notes_failing_page_whole_call_fails demoServer
        failingPageTransport 2).2
      (build_get_request demoServer "memos?pageToken=tok1") hmem hfail
  exact ⟨rfl, hne [Note.new "a"]⟩

/-- C7: a successful `sign_in(username, password)` POSTs exactly one
request to the sign-in endpoint carrying the password credentials, decodes
the access-token wrapper, and returns a new Session whose `base_url` is the
caller's, whose credential is the returned access token, and which is
marked derived; the caller's session is a read-only input of the pure
embedding, so it is unchanged. -/
theorem c7_sign_in_builds_derived_session (s : Server) (t : Transport)
    (u p : String) (rsp : HttpResponse) (tok : String)
    (hres : t ((build_post_request s "auth/signin").withJson
        (Json.obj [("passwordCredentials",
          Json.obj [("username", Json.str u), ("password", Json.str p)])]))
      = TransportResult.response rsp)
    (hok : statusIsSuccess rsp.status = true)
    (hdec : decodeSignInResponse rsp.body = Except.ok tok) :
    sign_in s t u p =
      (Except.ok { base_url := s.base_url, token := tok, sign_out_required := true },
       [(build_post_request s "auth/signin").withJson
          (Json.obj [("passwordCredentials",
            Json.obj [("username", Json.str u), ("password", Json.str p)])])])
    ∧ ((build_post_request s "auth/signin").withJson
          (Json.obj [("passwordCredentials",
            Json.obj [("username", Json.str u), ("password", Json.str p)])])).method
        = Method.post
    ∧ ((build_post_request s "auth/signin").withJson
          (Json.obj [("passwordCredentials",
            Json.obj [("username", Json.str u), ("password", Json.str p)])])).url
        = s.base_url ++ "/" ++ "auth/signin" := by
  refine ⟨?_, rfl, rfl⟩
  unfold sign_in
  simp [send, validate_data_response, Except.bind, hres, hok, hdec]

theorem c7_sign_in_builds_derived_session_witness :
    sign_in demoServer signInOkTransport "alice" "pw" =
      (Except.ok
         { base_url := demoServer.base_url, token := "tok123"
           sign_out_required := true },
       [(build_post_request demoServer "auth/signin").withJson
          (Json.obj [("passwordCredentials",
            Json.obj [("username", Json.str "alice"), ("password", Json.str "pw")])])]) :=
  (c7_sign_in_builds_derived_session demoServer signInOkTransport "alice" "pw"
     { status := 200, body := Json.obj [("accessToken", Json.str "tok123")] }
     "tok123" rfl rfl rfl).1

/-- C8: for every Note with a present name, `update` issues exactly one
PATCH to that name whose update mask is the literal
`content,state,visibility,tags,pinned` — the mask is independent of the
note's other fields, so nothing outside those five fields is ever marked
updatable. -/
theorem c8_update_mask_exact (s : Server) (t : Transport) (note : Note)
    (nm : String) (h : note.name = Option.some nm) :
    (update_note s t note).snd
      = [(build_patch_request s (nm ++ updateMaskQuery)).withJson note.toJson]
    ∧ ((build_patch_request s (nm ++ updateMaskQuery)).withJson note.toJson).method
        = Method.patch
    ∧ nm ++ updateMaskQuery
        = nm ++ ("?updateMask="
            ++ String.intercalate "," ["content", "state", "visibility", "tags", "pinned"])
    ∧ ∀ note2 : Note, note2.name = Option.some nm →
        (update_note s t note2).snd.map Request.url
          = [s.base_url ++ "/" ++ (nm ++ updateMaskQuery)] := by
  refine ⟨?_, rfl, rfl, ?_⟩
  · unfold update_note
    rw [h]
    cases hv : (send t ((build_patch_request s (nm ++ updateMaskQuery)).withJson
        note.toJson)).bind (validate_data_response decodeNote) <;> simp [hv]
  · intro note2 h2
    unfold update_note
    rw [h2]
    cases hv : (send t ((build_patch_request s (nm ++ updateMaskQuery)).withJson
        note2.toJson)).bind (validate_data_response decodeNote) <;>
      simp only [hv] <;> rfl

theorem c8_update_mask_exact_witness :
    namedNote.name = Option.some "memos/42"
    ∧ (update_note demoServer noNetwork namedNote).snd
        = [(build_patch_request demoServer ("memos/42" ++ updateMaskQuery)).withJson
             namedNote.toJson]
    ∧ "memos/42" ++ updateMaskQuery
        = "memos/42" ++ ("?updateMask="
            ++ String.intercalate "," ["content", "state", "visibility", "tags", "pinned"]) :=
  ⟨rfl,
   (c8_update_mask_exact demoServer noNetwork namedNote "memos/42" rfl).1,
   (c8_update_mask_exact demoServer noNetwork namedNote "memos/42" rfl).2.2.1⟩

/-- C2 (counterexample): not every failure is converted to the
`{"error": ...}` envelope: the dispatcher's `delete_memo` on a Note with no
`name` panics on `unwrap()`, and that panic escapes to the caller
unencoded (the outcome is not a payload). -/
theorem c2_dispatcher_panic_escapes_cex :
    (delete_memo demoServer noNetwork (Note.new "w")).fst
      = ToolOutcome.panicked unwrapPanicMsg
    ∧ ((delete_memo demoServer noNetwork (Note.new "w")).fst).isPayload = false :=
  ⟨rfl, rfl⟩

/-- C2 (amended): every tool call returns an encoded payload — the JSON of
the typed result on success, or exactly `{"error": <message>}` carrying the
underlying failure message, which for a non-2xx response is the non-empty
`Request failed: ...` text — except that `update_memo` and `delete_memo`
invoked on a Note whose `name` is absent panic on `unwrap()`, and that
panic escapes the dispatcher unencoded. -/
theorem c2_dispatcher_uniform_encoding (s : Server) (t : Transport)
    (fuel : Nat) (name : String) (note : Note) (cname : String)
    (comment : Note) :
    ((list_memos s t fuel).fst.isPayload = true)
    ∧ ((get_memo s t name).fst.isPayload = true)
    ∧ ((create_memo s t note).fst.isPayload = true)
    ∧ ((create_memo_comment s t cname comment).fst.isPayload = true)
    ∧ ((list_memo_comments s t name).fst.isPayload = true)
    ∧ (∀ nm, note.name = Option.some nm →
        (update_memo s t note).fst.isPayload = true
        ∧ (delete_memo s t note).fst.isPayload = true)
    ∧ (note.name = Option.none →
        (update_memo s t note).fst = ToolOutcome.panicked unwrapPanicMsg
        ∧ (delete_memo s t note).fst = ToolOutcome.panicked unwrapPanicMsg)
    ∧ (∀ e tr, list_notes s t fuel = (Except.error e, tr) →
        list_memos s t fuel = (ToolOutcome.payload (errEnvelope e), tr))
    ∧ (∀ l tr, list_notes s t fuel = (Except.ok l, tr) →
        list_memos s t fuel
          = (ToolOutcome.payload (Json.arr (l.map Note.toJson)), tr))
    ∧ (∀ rsp : HttpResponse,
        t (build_get_request s name) = TransportResult.response rsp →
        statusIsSuccess rsp.status = false →
        (get_memo s t name).fst = ToolOutcome.payload (errEnvelope
            ("Request failed: " ++ toString rsp.status ++ " - " ++ rsp.body.render))
        ∧ ("Request failed: " ++ toString rsp.status ++ " - " ++ rsp.body.render) ≠ "") := by
  refine ⟨?_, ?_, ?_, ?_, ?_, ?_, ?_, ?_, ?_, ?_⟩
  · cases hr : list_notes s t fuel with
    | mk r tr => cases r <;> simp [list_memos, hr, ToolOutcome.isPayload]
  · cases hr : get_note s t name with
    | mk r tr => cases r <;> simp [get_memo, hr, ToolOutcome.isPayload]
  · cases hr : create_note s t note with
    | mk r tr => cases r <;> simp [create_memo, hr, ToolOutcome.isPayload]
  · cases hr : create_note_comment s t cname comment with
    | mk r tr =>
        cases r <;> simp [create_memo_comment, hr, ToolOutcome.isPayload]
  · cases hr : list_note_comments s t name with
    | mk r tr =>
        cases r <;> simp [list_memo_comments, hr, ToolOutcome.isPayload]
  · intro nm hnm
    constructor
    · unfold update_memo update_note
      rw [hnm]
      cases hv : (send t ((build_patch_request s (nm ++ updateMaskQuery)).withJson
          note.toJson)).bind (validate_data_response decodeNote) <;>
        simp only [hv] <;> rfl
    · unfold delete_memo
      rw [hnm]
      cases hd : delete_note s t nm with
      | mk r tr => cases r <;> simp [hd, ToolOutcome.isPayload]
  · intro hnone
    unfold update_memo update_note delete_memo
    rw [hnone]
    exact ⟨rfl, rfl⟩
  · intro e tr h
    simp [list_memos, h]
  · intro l tr h
    simp [list_memos, h]
  · intro rsp hrsp hbad
    constructor
    · unfold get_memo get_note
      simp [send, hrsp, validate_data_response, hbad, Except.bind]
    · intro hcontra
      have hl := congrArg String.length hcontra
      simp only [String.length_append,
        show ("Request failed: " : String).length = 16 from rfl,
        show (" - " : String).length = 3 from rfl,
        show ("" : String).length = 0 from rfl] at hl
      omega

theorem c2_dispatcher_uniform_encoding_witness :
    (Note.new "w").name = Option.none
    ∧ (update_memo demoServer noNetwork (Note.new "w")).fst
        = ToolOutcome.panicked unwrapPanicMsg
    ∧ statusIsSuccess 404 = false
    ∧ (get_memo demoServer alwaysNotFound "memos/1").fst
        = ToolOutcome.payload (errEnvelope
            ("Request failed: " ++ toString 404 ++ " - " ++ (Json.str "not found").render)) :=
  ⟨rfl,
   ((c2_dispatcher_uniform_encoding demoServer noNetwork 1 "memos/1"
       (Note.new "w") "p" (Note.new "q")).2.2.2.2.2.2.1 rfl).1,
   rfl,
   ((c2_dispatcher_uniform_encoding demoServer alwaysNotFound 1 "memos/1"
       (Note.new "w") "p" (Note.new "q")).2.2.2.2.2.2.2.2.2
      { status := 404, body := Json.str "not found" } rfl rfl).1⟩

end McpMemo
